import Mathlib

/-!
Shallow embedding of the Redmine crawler's orchestration core
(`src/domain/entities/issue.py`, `src/domain/value_objects/common.py`,
`src/domain/services/crawler_service.py`,
`src/application/services/crawler_service.py`,
`src/infrastructure/storage/file_storage.py`) together with proofs of the
testable properties stated in the specification.

Modelling conventions:
* Python unbounded integers are `Int` (counters that are provably
  non-negative are `Nat`); Python float division in `success_rate` is
  modelled with `ℚ`.
* Fallible repository calls (`get_by_id`, `download_attachment`,
  `generate_pdf`, `save`) are oracles supplied by an environment record;
  each call either returns a value or raises an exception with a message.
* Event publication (`_publish_event`) never raises in the source (handler
  errors are caught and printed), so it is modelled as appending to a pure
  trace of actions; repository invocations are recorded in the same trace
  so that ordering claims can be stated.
* `time.time()` readings are abstracted as the integer-second value that
  the code actually uses (`int(time.time())`), passed in as a `Nat`.
-/

namespace Redmine

/-! ### Python string helpers -/

/-- One step of Python's `strip`: drop the longest prefix of characters
satisfying `p` (`str.strip` / `str.strip(' .')` drop from both ends). -/
def dropLeading (p : Char → Bool) : List Char → List Char
  | [] => []
  | c :: cs => if p c then dropLeading p cs else c :: cs

/-- Drop the longest suffix of characters satisfying `p`. -/
def dropTrailing (p : Char → Bool) (l : List Char) : List Char :=
  (dropLeading p l.reverse).reverse

/-- Python `str.strip(chars)`: drop matching characters from both ends. -/
def stripBoth (p : Char → Bool) (l : List Char) : List Char :=
  dropTrailing p (dropLeading p l)

/-- Python `str.strip()` (no arguments): strip whitespace from both ends. -/
def pyStrip (s : String) : String :=
  String.mk (stripBoth (fun c => c.isWhitespace) s.data)

/-! ### Domain entities (`src/domain/entities/issue.py`) -/

/-- `IssueId` value object.  The Python `__post_init__` rejects blank input
and stores the stripped string; construction is `mkIssueId` below. -/
structure IssueId where
  value : String
deriving DecidableEq, Repr

/-- `IssueId(raw)`: raises `ValueError` on empty/blank input, otherwise
stores `str(raw).strip()`. -/
def mkIssueId (raw : String) : Option IssueId :=
  if pyStrip raw = "" then none else some ⟨pyStrip raw⟩

/-- `Attachment` value object (filename, url, optional size and content
type).  Python dataclass equality compares all four fields. -/
structure Attachment where
  filename : String
  url : String
  size : Option Nat := none
  content_type : Option String := none
deriving DecidableEq, Repr

/-- `Issue` entity.  `datetime` timestamps are opaque to the orchestration
logic and are modelled as `Option Nat`; `custom_fields : Dict[str, Any]` is
modelled as an association list of strings (the orchestrator never reads
it). -/
structure Issue where
  id : IssueId
  title : String := ""
  description : String := ""
  status : String := ""
  priority : String := ""
  assignee : String := ""
  author : String := ""
  created_date : Option Nat := none
  updated_date : Option Nat := none
  attachments : List Attachment := []
  custom_fields : List (String × String) := []
  html_content : String := ""
deriving Repr

/-- `Issue.add_attachment`: appends unless the very same attachment value is
already present (`if attachment not in self.attachments`). -/
def Issue.add_attachment (i : Issue) (a : Attachment) : Issue :=
  if a ∈ i.attachments then i
  else { i with attachments := i.attachments ++ [a] }

/-- `Issue.get_attachment`: first attachment with the given filename. -/
def Issue.get_attachment (i : Issue) (filename : String) : Option Attachment :=
  i.attachments.find? (fun a => a.filename == filename)

/-! ### Value objects (`src/domain/value_objects/common.py`) -/

/-- `FilePath` value object (non-emptiness check omitted; every path built
by the orchestrator is non-empty by construction). -/
structure FilePath where
  path : String
deriving DecidableEq, Repr

/-- `CrawlRequest` value object. -/
structure CrawlRequest where
  issue_numbers : List String
  output_directory : FilePath
  session_cookie : String := ""
deriving DecidableEq, Repr

/-- The `__post_init__` validation of `CrawlRequest`: a non-empty list with
no blank entry. -/
def CrawlRequest.Valid (r : CrawlRequest) : Prop :=
  r.issue_numbers ≠ [] ∧ ∀ n ∈ r.issue_numbers, pyStrip n ≠ ""

instance (r : CrawlRequest) : Decidable r.Valid := by
  unfold CrawlRequest.Valid; infer_instance

/-- `CrawlRequest.get_issue_count`. -/
def CrawlRequest.get_issue_count (r : CrawlRequest) : Nat :=
  r.issue_numbers.length

/-- `CrawlResult` value object; the Python dataclass performs no validation,
so every combination of integers is constructible. -/
structure CrawlResult where
  total_issues : Int
  successful_issues : Int
  failed_issues : Int
  attachments_downloaded : Int
  pdfs_generated : Int
deriving DecidableEq, Repr

/-- `CrawlResult.success_rate` (Python float division, modelled in `ℚ`). -/
def CrawlResult.success_rate (r : CrawlResult) : ℚ :=
  if r.total_issues = 0 then 0
  else (r.successful_issues : ℚ) / (r.total_issues : ℚ)

/-- `CrawlResult.is_fully_successful`. -/
def CrawlResult.is_fully_successful (r : CrawlResult) : Bool :=
  r.successful_issues == r.total_issues

/-! ### Filename sanitization
(`IssueCrawlerService._sanitize_filename` in
`src/domain/services/crawler_service.py` and
`FileSystemAttachmentRepository._sanitize_filename` in
`src/infrastructure/storage/file_storage.py`) -/

/-- The character class of `re.sub(r'[<>:"/\\|?*]', '_', filename)`. -/
def illegalChar (c : Char) : Bool :=
  c == '<' || c == '>' || c == ':' || c == '"' || c == '/' ||
  c == '\\' || c == '|' || c == '?' || c == '*'

/-- Replacement applied to each character by the `re.sub` call. -/
def replaceIllegal (c : Char) : Char :=
  if illegalChar c then '_' else c

/-- The strip set of `filename.strip(' .')`. -/
def spaceDot (c : Char) : Bool :=
  c == ' ' || c == '.'

/-- `IssueCrawlerService._sanitize_filename`: replace illegal characters,
strip spaces/dots from both ends, truncate to 100 characters, fall back to
`"unnamed_file"` when empty. -/
def sanitize_filename (filename : String) : String :=
  let f := stripBoth spaceDot (filename.data.map replaceIllegal)
  let f := if f.length > 100 then f.take 100 else f
  if f = [] then "unnamed_file" else String.mk f

/-- `FileSystemAttachmentRepository._sanitize_filename`: identical except
that it has no 100-character truncation. -/
def fs_sanitize_filename (filename : String) : String :=
  let f := stripBoth spaceDot (filename.data.map replaceIllegal)
  if f = [] then "unnamed_file" else String.mk f

/-- PDF file name chosen by `IssueCrawlerService._generate_pdf`:
`f"{id}_{safe_title}.pdf"` when the issue has a title, otherwise
`f"issue_{id}.pdf"`. -/
def pdfFilename (issue : Issue) : String :=
  if issue.title ≠ "" then
    issue.id.value ++ "_" ++ sanitize_filename issue.title ++ ".pdf"
  else
    "issue_" ++ issue.id.value ++ ".pdf"

/-! ### Domain events (`src/domain/events/crawl_events.py`)
Only the payload fields are modelled; `occurred_at`/`event_id` metadata are
irrelevant to every claim. -/

/-- The per-issue domain events published by `IssueCrawlerService`. -/
inductive Event where
  | issueStarted (issue_id : String)
  | issueCompleted (issue_id : String) (success : Bool)
      (attachments_downloaded : Nat) (pdf_generated : Bool)
  | issueFailed (issue_id : String) (error_message : String)
  | attachmentStarted (issue_id : String) (filename : String)
  | attachmentCompleted (issue_id : String) (filename : String) (file_size : Nat)
  | pdfStarted (issue_id : String)
  | pdfCompleted (issue_id : String) (pdf_size : Nat)
deriving DecidableEq, Repr

/-- Repository invocations made by `IssueCrawlerService.process_issue`;
recorded in the trace so that call/event ordering can be stated. -/
inductive RepoCall where
  | fetchCall
  | downloadCall (idx : Nat)
  | renderCall
  | saveCall
deriving DecidableEq, Repr

/-- One observable step of `process_issue`: a published event or a
repository invocation. -/
inductive Action where
  | event (e : Event)
  | call (c : RepoCall)
deriving DecidableEq, Repr

/-- Result of one awaited repository call: a value, or a raised exception
carrying `str(e)`. -/
inductive Outcome (α : Type) where
  | ok (a : α)
  | exn (msg : String)
deriving DecidableEq, Repr

/-- Oracle describing how the three injected repositories behave for one
processed issue.  `downSize i` is the value of `attachment.size or 0` read
after the `i`-th download succeeded (implementations mutate
`attachment.size`); `renderedSize` is `stat().st_size` of the generated PDF
when it exists, else `0`. -/
structure RepoEnv where
  fetch : Outcome (Option Issue)
  download : Nat → Outcome Bool
  downSize : Nat → Nat
  render : Outcome Bool
  renderedSize : Nat
  save : Outcome Unit

/-! ### Issue crawler domain service
(`IssueCrawlerService` in `src/domain/services/crawler_service.py`) -/

/-- One iteration of the loop in `_process_attachments`: publish
`AttachmentDownloadStarted`, invoke `download_attachment`, and on a `True`
result count it and publish `AttachmentDownloadCompleted`; a `False` result
or a raised exception is logged and skipped. -/
def processOneAttachment (env : RepoEnv) (iid : String) (i : Nat)
    (a : Attachment) : Nat × List Action :=
  let pre : List Action :=
    [.event (.attachmentStarted iid a.filename), .call (.downloadCall i)]
  match env.download i with
  | .ok true => (1, pre ++ [.event (.attachmentCompleted iid a.filename (env.downSize i))])
  | .ok false => (0, pre)
  | .exn _ => (0, pre)

/-- `IssueCrawlerService._process_attachments`: fold over the issue's
attachments in listed order, returning the download count and the trace. -/
def processAttachments (env : RepoEnv) (iid : String) :
    List Attachment → Nat → Nat × List Action
  | [], _ => (0, [])
  | a :: rest, i =>
    let r := processOneAttachment env iid i a
    let rs := processAttachments env iid rest (i + 1)
    (r.1 + rs.1, r.2 ++ rs.2)

/-- `IssueCrawlerService._generate_pdf`: publish `PdfGenerationStarted`,
compute the destination name, invoke `generate_pdf`; on `True` publish
`PdfGenerationCompleted(size)`.  The whole body is wrapped in
`try/except` returning `False`, so a raised render (or a failing `stat`)
yields `False` with no completion event. -/
def generate_pdf (env : RepoEnv) (issue : Issue) : Bool × List Action :=
  let _pdf_name := pdfFilename issue
  let pre : List Action := [.event (.pdfStarted issue.id.value), .call .renderCall]
  match env.render with
  | .ok true => (true, pre ++ [.event (.pdfCompleted issue.id.value env.renderedSize)])
  | .ok false => (false, pre)
  | .exn _ => (false, pre)

/-- `IssueCrawlerService.process_issue`: publish started, fetch; on `None`
publish failed and return `False`; otherwise process attachments, generate
the PDF, save the issue, publish completed and return `True`.  Any raised
exception (fetch or save — the attachment and PDF phases swallow their own
exceptions) lands in the outer `except`, which publishes
`IssueProcessingFailed(str(e))` and returns `False`. -/
def process_issue (env : RepoEnv) (issue_id : IssueId) : Bool × List Action :=
  let started : List Action :=
    [.event (.issueStarted issue_id.value), .call .fetchCall]
  match env.fetch with
  | .exn msg => (false, started ++ [.event (.issueFailed issue_id.value msg)])
  | .ok none =>
    (false, started ++
      [.event (.issueFailed issue_id.value ("找不到 Issue: " ++ issue_id.value))])
  | .ok (some issue) =>
    let att := processAttachments env issue.id.value issue.attachments 0
    let pdf := generate_pdf env issue
    let tr := started ++ att.2 ++ pdf.2 ++ [.call .saveCall]
    match env.save with
    | .ok _ =>
      (true, tr ++ [.event (.issueCompleted issue_id.value true att.1 pdf.1)])
    | .exn msg =>
      (false, tr ++ [.event (.issueFailed issue_id.value msg)])

/-! ### Crawl validation (`CrawlValidationService`) -/

/-- `CrawlValidationService.validate_crawl_request`.  The filesystem check
on the output directory's parent is abstracted as the boolean
`parentExists`. -/
def validate_crawl_request (parentExists : Bool) (request : CrawlRequest) :
    List String :=
  (if request.issue_numbers = [] then ["問題編號列表不能為空"] else []) ++
  (request.issue_numbers.filterMap fun n =>
    if pyStrip n = "" then some ("無效的問題編號: " ++ n) else none) ++
  (if parentExists then [] else
    ["輸出目錄的父目錄不存在: " ++ request.output_directory.path])

/-- `CrawlValidationService.validate_issue_id`: blank-rejecting integer
parse (`int(issue_id)` succeeding). -/
def validate_issue_id (issue_id : String) : Bool :=
  if pyStrip issue_id = "" then false
  else (pyStrip issue_id).toInt?.isSome

/-! ### Application session service
(`CrawlerService` in `src/application/services/crawler_service.py`) -/

/-- Observable step of `CrawlerService.crawl_issues`: the session events,
one entry per processed record (with its nested per-issue trace), and the
`asyncio.sleep(config.redmine.request_delay)` executed inside the loop. -/
inductive BAction where
  | sessionStarted (session_id : String) (total : Nat)
  | record (issue_number : String) (acts : List Action)
  | sleep
  | sessionCompleted (session_id : String) (total : Nat) (successful : Nat)
deriving DecidableEq, Repr

/-- Batch environment: `perIssue i` is the repository oracle in effect for
the `i`-th record of the request, `parentExists` feeds the validation's
filesystem check. -/
structure BatchEnv where
  perIssue : Nat → RepoEnv
  parentExists : Bool

/-- Session identifier: `f"crawl_{int(time.time())}"` with `t` the integer
second read from the clock at session start. -/
def crawlSessionId (t : Nat) : String :=
  "crawl_" ++ Nat.repr t

/-- The record loop of `crawl_issues`.  Returns
(successful_count, failed_count, trace).  A blank number makes the
`IssueId` constructor raise inside the per-record `try`, so the record
contributes one failure and — because the `sleep` sits after the raise —
no sleep; otherwise `process_issue` decides the counter and the loop always
sleeps afterwards (including after the last record). -/
def crawlLoop (env : BatchEnv) : List String → Nat → Nat × Nat × List BAction
  | [], _ => (0, 0, [])
  | n :: rest, i =>
    let r := crawlLoop env rest (i + 1)
    if pyStrip n = "" then
      (r.1, r.2.1 + 1, r.2.2)
    else
      let p := process_issue (env.perIssue i) ⟨pyStrip n⟩
      ((if p.1 then 1 else 0) + r.1,
       (if p.1 then 0 else 1) + r.2.1,
       .record n p.2 :: .sleep :: r.2.2)

/-- `CrawlerService.crawl_issues`: validate (raising `ValueError` with the
aggregated messages on any violation), generate the session id, publish
`CrawlSessionStarted`, run the loop, and build the `CrawlResult` — with
`attachments_downloaded` hard-coded to `0` (the source comments that it
would need to be computed from events) and `pdfs_generated` set to the
successful count. -/
def crawl_issues (env : BatchEnv) (t : Nat) (request : CrawlRequest) :
    Except (List String) (CrawlResult × List BAction) :=
  let errs := validate_crawl_request env.parentExists request
  if errs ≠ [] then .error errs
  else
    let sid := crawlSessionId t
    let r := crawlLoop env request.issue_numbers 0
    let result : CrawlResult :=
      { total_issues := (request.get_issue_count : Int)
        successful_issues := (r.1 : Int)
        failed_issues := (r.2.1 : Int)
        attachments_downloaded := 0
        pdfs_generated := (r.1 : Int) }
    .ok (result,
      .sessionStarted sid request.get_issue_count :: r.2.2 ++
        [.sessionCompleted sid request.get_issue_count r.1])

/-! ### Concrete environments used by counterexamples and witnesses -/

/-- Oracle of a record whose fetch, downloads, render and save all
succeed. -/
def sampleOkEnv (iss : Issue) : RepoEnv :=
  { fetch := .ok (some iss), download := fun _ => .ok true,
    downSize := fun _ => 5, render := .ok true, renderedSize := 7,
    save := .ok () }

/-- Oracle of a record whose fetch returns `None`. -/
def sampleNotFoundEnv : RepoEnv :=
  { fetch := .ok none, download := fun _ => .ok false,
    downSize := fun _ => 0, render := .ok false, renderedSize := 0,
    save := .ok () }

/-- A fetched issue with exactly one attachment. -/
def sampleIssue (n : String) : Issue :=
  { id := ⟨n⟩, title := "Sample title",
    attachments := [{ filename := "a.txt", url := "http://example/a.txt" }] }

/-- Batch of three records: the first two succeed with one attachment each,
the third is not found (the scenario of the specification). -/
def batchEnv3 : BatchEnv :=
  { parentExists := true,
    perIssue := fun i =>
      if i < 2 then sampleOkEnv (sampleIssue (Nat.repr (i + 1)))
      else sampleNotFoundEnv }

/-- The three-identifier request of the scenario. -/
def request3 : CrawlRequest :=
  { issue_numbers := ["1", "2", "3"], output_directory := ⟨"out"⟩ }

/-- A single-identifier request. -/
def request1 : CrawlRequest :=
  { issue_numbers := ["1"], output_directory := ⟨"out"⟩ }

/-- A two-identifier request. -/
def request2 : CrawlRequest :=
  { issue_numbers := ["1", "2"], output_directory := ⟨"out"⟩ }

/-- Batch environment in which every record is not found. -/
def batchEnvNotFound : BatchEnv :=
  { parentExists := true, perIssue := fun _ => sampleNotFoundEnv }

/-- A successful fetch, downloads and save, but the render returns `False`:
used to witness the render-isolation claim. -/
def sampleRenderFailEnv : RepoEnv :=
  { fetch := .ok (some (sampleIssue "1")), download := fun _ => .ok true,
    downSize := fun _ => 5, render := .ok false, renderedSize := 0,
    save := .ok () }

/-- Issue with an empty attachment list. -/
def issueEmpty : Issue := { id := ⟨"1"⟩ }

/-- The 101-character name `"a" * 99 + " b"` whose sanitized form ends in a
space exposed by the 100-character truncation. -/
def longAName : String := String.mk (List.replicate 99 'a' ++ [' ', 'b'])

/-- Numeric value of a decimal digit character. -/
def digitVal (c : Char) : Nat := c.toNat - '0'.toNat

/-- Decode a most-significant-first digit string. -/
def decodeDigits (l : List Char) : Nat :=
  l.foldl (fun a c => 10 * a + digitVal c) 0

/-- Projection of a batch trace onto record iterations (`some number`) and
delay sleeps (`none`). -/
def stepKind : BAction → Option (Option String)
  | .record n _ => some (some n)
  | .sleep => some none
  | _ => none

/-- The interleaving of record iterations and sleeps in a batch trace. -/
def stepTrace (tr : List BAction) : List (Option String) :=
  tr.filterMap stepKind

/-! ### Strip helper lemmas -/

/-- The head (if any) does not satisfy `p`. -/
def headOk (p : Char → Bool) : List Char → Prop
  | [] => True
  | c :: _ => p c = false

theorem headOk_dropLeading (p : Char → Bool) (l : List Char) :
    headOk p (dropLeading p l) := by
  induction l with
  | nil => trivial
  | cons c cs ih =>
    cases h : p c with
    | true => simpa [dropLeading, h] using ih
    | false => simp [dropLeading, h, headOk]

theorem dropLeading_eq_of_headOk {p : Char → Bool} {l : List Char}
    (h : headOk p l) : dropLeading p l = l := by
  cases l with
  | nil => rfl
  | cons c cs =>
    simp only [headOk] at h
    simp [dropLeading, h]

theorem dropLeading_suffix (p : Char → Bool) (l : List Char) :
    ∃ t, t ++ dropLeading p l = l := by
  induction l with
  | nil => exact ⟨[], rfl⟩
  | cons c cs ih =>
    cases h : p c with
    | true =>
      obtain ⟨t, ht⟩ := ih
      exact ⟨c :: t, by simp [dropLeading, h, ht]⟩
    | false => exact ⟨[], by simp [dropLeading, h]⟩

theorem headOk_dropTrailing {p : Char → Bool} {l : List Char}
    (h : headOk p l) : headOk p (dropTrailing p l) := by
  obtain ⟨t, ht⟩ := dropLeading_suffix p l.reverse
  have hl : (dropLeading p l.reverse).reverse ++ t.reverse = l := by
    have h2 := congrArg List.reverse ht
    simpa using h2
  unfold dropTrailing
  cases hd : (dropLeading p l.reverse).reverse with
  | nil => trivial
  | cons c cs =>
    rw [hd] at hl
    rw [← hl] at h
    simpa [headOk] using h

theorem stripBoth_headOk (p : Char → Bool) (l : List Char) :
    headOk p (stripBoth p l) :=
  headOk_dropTrailing (headOk_dropLeading p l)

theorem dropTrailing_eq_of_headOk_reverse {p : Char → Bool} {l : List Char}
    (h : headOk p l.reverse) : dropTrailing p l = l := by
  unfold dropTrailing
  rw [dropLeading_eq_of_headOk h, List.reverse_reverse]

theorem headOk_reverse_stripBoth (p : Char → Bool) (l : List Char) :
    headOk p (stripBoth p l).reverse := by
  unfold stripBoth dropTrailing
  rw [List.reverse_reverse]
  exact headOk_dropLeading p _

theorem stripBoth_idem (p : Char → Bool) (l : List Char) :
    stripBoth p (stripBoth p l) = stripBoth p l := by
  have h1 : dropLeading p (stripBoth p l) = stripBoth p l :=
    dropLeading_eq_of_headOk (stripBoth_headOk p l)
  have h2 : dropTrailing p (stripBoth p l) = stripBoth p l :=
    dropTrailing_eq_of_headOk_reverse (headOk_reverse_stripBoth p l)
  show dropTrailing p (dropLeading p (stripBoth p l)) = stripBoth p l
  rw [h1, h2]

theorem mem_of_mem_dropLeading {p : Char → Bool} {l : List Char} {a : Char}
    (h : a ∈ dropLeading p l) : a ∈ l := by
  induction l with
  | nil => simp [dropLeading] at h
  | cons c cs ih =>
    rw [dropLeading] at h
    by_cases hc : p c = true
    · rw [if_pos hc] at h
      exact List.mem_cons_of_mem c (ih h)
    · rw [if_neg hc] at h
      exact h

theorem mem_of_mem_dropTrailing {p : Char → Bool} {l : List Char} {a : Char}
    (h : a ∈ dropTrailing p l) : a ∈ l := by
  unfold dropTrailing at h
  rw [List.mem_reverse] at h
  have := mem_of_mem_dropLeading h
  rwa [List.mem_reverse] at this

theorem mem_of_mem_stripBoth {p : Char → Bool} {l : List Char} {a : Char}
    (h : a ∈ stripBoth p l) : a ∈ l :=
  mem_of_mem_dropLeading (mem_of_mem_dropTrailing h)

/-! ### Sanitization lemmas -/

theorem map_id_of_mem {f : Char → Char} :
    ∀ {l : List Char}, (∀ c ∈ l, f c = c) → l.map f = l := by
  intro l
  induction l with
  | nil => intro _; rfl
  | cons c cs ih =>
    intro h
    simp only [List.map_cons]
    rw [h c (List.mem_cons_self c cs), ih (fun x hx => h x (List.mem_cons_of_mem c hx))]

theorem replaceIllegal_underscore : replaceIllegal '_' = '_' := by decide

theorem replaceIllegal_fix (c : Char) :
    replaceIllegal (replaceIllegal c) = replaceIllegal c := by
  cases h : illegalChar c with
  | true =>
    have hc : replaceIllegal c = '_' := by simp [replaceIllegal, h]
    rw [hc]
    exact replaceIllegal_underscore
  | false => simp [replaceIllegal, h]

/-- The attachment-store sanitizer is idempotent. -/
theorem fs_sanitize_idem (s : String) :
    fs_sanitize_filename (fs_sanitize_filename s) = fs_sanitize_filename s := by
  by_cases h : stripBoth spaceDot (s.data.map replaceIllegal) = []
  · have hs : fs_sanitize_filename s = "unnamed_file" := by
      unfold fs_sanitize_filename
      simp [h]
    rw [hs]
    decide
  · have hs : fs_sanitize_filename s =
        String.mk (stripBoth spaceDot (s.data.map replaceIllegal)) := by
      unfold fs_sanitize_filename
      simp [h]
    rw [hs]
    have hmap : (stripBoth spaceDot (s.data.map replaceIllegal)).map replaceIllegal =
        stripBoth spaceDot (s.data.map replaceIllegal) := by
      apply map_id_of_mem
      intro c hc
      have hc2 : c ∈ s.data.map replaceIllegal := mem_of_mem_stripBoth hc
      obtain ⟨c0, _, rfl⟩ := List.mem_map.mp hc2
      exact replaceIllegal_fix c0
    unfold fs_sanitize_filename
    rw [show (String.mk (stripBoth spaceDot (s.data.map replaceIllegal))).data =
          stripBoth spaceDot (s.data.map replaceIllegal) from rfl]
    rw [hmap, stripBoth_idem]
    simp [h]

theorem map_replaceIllegal_all_illegal {l : List Char}
    (h : ∀ c ∈ l, illegalChar c = true) :
    l.map replaceIllegal = List.replicate l.length '_' := by
  induction l with
  | nil => rfl
  | cons c cs ih =>
    have hc : replaceIllegal c = '_' := by
      simp [replaceIllegal, h c (List.mem_cons_self c cs)]
    simp only [List.map_cons, List.length_cons, List.replicate_succ, hc]
    rw [ih (fun x hx => h x (List.mem_cons_of_mem c hx))]

theorem stripBoth_replicate_underscore (n : Nat) :
    stripBoth spaceDot (List.replicate n '_') = List.replicate n '_' := by
  have h : headOk spaceDot (List.replicate n '_') := by
    cases n with
    | zero => trivial
    | succ m =>
      rw [List.replicate_succ]
      show spaceDot '_' = false
      decide
  unfold stripBoth
  rw [dropLeading_eq_of_headOk h]
  apply dropTrailing_eq_of_headOk_reverse
  rw [List.reverse_replicate]
  exact h

/-- The attachment-store sanitizer maps a non-empty all-illegal string to a
same-length string of underscores. -/
theorem fs_sanitize_all_illegal {s : String} (hne : s.data ≠ [])
    (h : ∀ c ∈ s.data, illegalChar c = true) :
    fs_sanitize_filename s = String.mk (List.replicate s.data.length '_') := by
  unfold fs_sanitize_filename
  rw [map_replaceIllegal_all_illegal h, stripBoth_replicate_underscore]
  have hrep : List.replicate s.data.length '_' ≠ [] := by
    cases hd : s.data with
    | nil => exact absurd hd hne
    | cons c cs => simp [hd, List.replicate_succ]
  dsimp only
  rw [if_neg hrep]

/-- The domain sanitizer maps a non-empty all-illegal string to
`min len 100` underscores. -/
theorem sanitize_all_illegal {s : String} (hne : s.data ≠ [])
    (h : ∀ c ∈ s.data, illegalChar c = true) :
    sanitize_filename s = String.mk (List.replicate (min s.data.length 100) '_') := by
  unfold sanitize_filename
  rw [map_replaceIllegal_all_illegal h, stripBoth_replicate_underscore]
  have hlen : 1 ≤ s.data.length := by
    cases hd : s.data with
    | nil => exact absurd hd hne
    | cons c cs => simp [hd]
  have hmin : 1 ≤ min s.data.length 100 := le_min hlen (by norm_num)
  dsimp only
  rw [List.length_replicate]
  by_cases hl : s.data.length > 100
  · rw [if_pos hl, List.take_replicate]
    have hrep : List.replicate (min 100 s.data.length) '_' ≠ [] := by
      have : 1 ≤ min 100 s.data.length := le_min (by norm_num) hlen
      cases hm : min 100 s.data.length with
      | zero => omega
      | succ k => simp [List.replicate_succ]
    rw [if_neg hrep, Nat.min_comm]
  · rw [if_neg hl]
    have hle : s.data.length ≤ 100 := by omega
    have hm : min s.data.length 100 = s.data.length := min_eq_left hle
    rw [hm]
    have hrep2 : List.replicate s.data.length '_' ≠ [] := by
      cases hd : s.data with
      | nil => exact absurd hd hne
      | cons c cs => simp [hd, List.replicate_succ]
    rw [if_neg hrep2]

/-! ### Injectivity of the decimal rendering used by the session id -/

theorem digitVal_digitChar {d : Nat} (h : d < 10) :
    digitVal (Nat.digitChar d) = d := by
  interval_cases d <;> decide

theorem decodeDigits_append_singleton (l : List Char) (c : Char) :
    decodeDigits (l ++ [c]) = 10 * decodeDigits l + digitVal c := by
  unfold decodeDigits
  rw [List.foldl_append]
  rfl

theorem toDigitsCore_append (fuel n : Nat) (ds : List Char) :
    Nat.toDigitsCore 10 fuel n ds = Nat.toDigitsCore 10 fuel n [] ++ ds := by
  induction fuel generalizing n ds with
  | zero => rfl
  | succ f ih =>
    show (if n / 10 = 0 then Nat.digitChar (n % 10) :: ds
          else Nat.toDigitsCore 10 f (n / 10) (Nat.digitChar (n % 10) :: ds)) =
         (if n / 10 = 0 then Nat.digitChar (n % 10) :: ([] : List Char)
          else Nat.toDigitsCore 10 f (n / 10) [Nat.digitChar (n % 10)]) ++ ds
    by_cases h : n / 10 = 0
    · simp [h]
    · rw [if_neg h, if_neg h, ih (n / 10) (Nat.digitChar (n % 10) :: ds),
        ih (n / 10) [Nat.digitChar (n % 10)]]
      simp

theorem decode_toDigitsCore :
    ∀ n fuel, n < fuel → decodeDigits (Nat.toDigitsCore 10 fuel n []) = n := by
  intro n
  induction n using Nat.strong_induction_on with
  | _ n ih =>
    intro fuel hf
    cases fuel with
    | zero => omega
    | succ f =>
      show decodeDigits
          (if n / 10 = 0 then [Nat.digitChar (n % 10)]
           else Nat.toDigitsCore 10 f (n / 10) [Nat.digitChar (n % 10)]) = n
      by_cases h : n / 10 = 0
      · rw [if_pos h]
        show 10 * 0 + digitVal (Nat.digitChar (n % 10)) = n
        rw [digitVal_digitChar (Nat.mod_lt n (by norm_num))]
        omega
      · rw [if_neg h]
        have hlt : n / 10 < n := by omega
        have hfuel : n / 10 < f := by omega
        rw [toDigitsCore_append, decodeDigits_append_singleton,
          ih (n / 10) hlt f hfuel,
          digitVal_digitChar (Nat.mod_lt n (by norm_num))]
        omega

theorem decodeDigits_toDigits (n : Nat) :
    decodeDigits (Nat.toDigits 10 n) = n :=
  decode_toDigitsCore n (n + 1) (Nat.lt_succ_self n)

theorem natRepr_injective : Function.Injective Nat.repr := by
  intro a b h
  have h2 : Nat.toDigits 10 a = Nat.toDigits 10 b := by
    have h3 := congrArg String.data h
    simpa [Nat.repr, List.asString] using h3
  have ha := decodeDigits_toDigits a
  rw [h2, decodeDigits_toDigits b] at ha
  exact ha.symm

/-! ### Loop bookkeeping lemmas -/

theorem crawlLoop_counts (env : BatchEnv) :
    ∀ (nums : List String) (i : Nat),
      (crawlLoop env nums i).1 + (crawlLoop env nums i).2.1 = nums.length := by
  intro nums
  induction nums with
  | nil => intro i; rfl
  | cons n rest ih =>
    intro i
    have hr := ih (i + 1)
    unfold crawlLoop
    simp only [List.length_cons]
    by_cases h : pyStrip n = ""
    · rw [if_pos h]
      dsimp only
      omega
    · rw [if_neg h]
      dsimp only
      cases hp : (process_issue (env.perIssue i) ⟨pyStrip n⟩).1 <;> simp [hp] <;> omega

theorem crawlLoop_stepTrace (env : BatchEnv) :
    ∀ (nums : List String) (i : Nat), (∀ n ∈ nums, pyStrip n ≠ "") →
      stepTrace (crawlLoop env nums i).2.2 =
        nums.flatMap (fun n => [some n, none]) := by
  intro nums
  induction nums with
  | nil => intro i _; rfl
  | cons n rest ih =>
    intro i h
    have hn : pyStrip n ≠ "" := h n (List.mem_cons_self n rest)
    unfold crawlLoop
    rw [if_neg hn]
    dsimp only
    rw [List.flatMap_cons]
    simp only [stepTrace, List.filterMap_cons, stepKind]
    rw [← stepTrace, ih (i + 1) (fun x hx => h x (List.mem_cons_of_mem n hx))]
    rfl

/-! ### Trace shape lemmas for the per-issue pipeline -/

theorem mem_processOneAttachment_shapes {env : RepoEnv} {iid : String}
    {i : Nat} {att : Attachment} {a : Action}
    (h : a ∈ (processOneAttachment env iid i att).2) :
    (∃ f, a = .event (.attachmentStarted iid f)) ∨
    (∃ j, a = .call (.downloadCall j)) ∨
    (∃ f s, a = .event (.attachmentCompleted iid f s)) := by
  cases hd : env.download i with
  | ok b =>
    cases b with
    | false =>
      simp [processOneAttachment, hd] at h
      rcases h with h | h
      · exact Or.inl ⟨att.filename, h⟩
      · exact Or.inr (Or.inl ⟨i, h⟩)
    | true =>
      simp [processOneAttachment, hd] at h
      rcases h with h | h | h
      · exact Or.inl ⟨att.filename, h⟩
      · exact Or.inr (Or.inl ⟨i, h⟩)
      · exact Or.inr (Or.inr ⟨att.filename, env.downSize i, h⟩)
  | exn msg =>
    simp [processOneAttachment, hd] at h
    rcases h with h | h
    · exact Or.inl ⟨att.filename, h⟩
    · exact Or.inr (Or.inl ⟨i, h⟩)

theorem mem_processAttachments_shapes {env : RepoEnv} {iid : String} :
    ∀ {l : List Attachment} {i : Nat} {a : Action},
      a ∈ (processAttachments env iid l i).2 →
      (∃ f, a = .event (.attachmentStarted iid f)) ∨
      (∃ j, a = .call (.downloadCall j)) ∨
      (∃ f s, a = .event (.attachmentCompleted iid f s)) := by
  intro l
  induction l with
  | nil =>
    intro i a h
    simp [processAttachments] at h
  | cons att rest ih =>
    intro i a h
    unfold processAttachments at h
    dsimp only at h
    rw [List.mem_append] at h
    rcases h with h | h
    · exact mem_processOneAttachment_shapes h
    · exact ih h

theorem mem_generate_pdf_shapes {env : RepoEnv} {issue : Issue} {a : Action}
    (h : a ∈ (generate_pdf env issue).2) :
    a = .event (.pdfStarted issue.id.value) ∨
    a = .call .renderCall ∨
    (∃ s, a = .event (.pdfCompleted issue.id.value s)) := by
  cases hr : env.render with
  | ok b =>
    cases b with
    | false =>
      simp [generate_pdf, hr] at h
      rcases h with h | h
      · exact Or.inl h
      · exact Or.inr (Or.inl h)
    | true =>
      simp [generate_pdf, hr] at h
      rcases h with h | h | h
      · exact Or.inl h
      · exact Or.inr (Or.inl h)
      · exact Or.inr (Or.inr ⟨env.renderedSize, h⟩)
  | exn msg =>
    simp [generate_pdf, hr] at h
    rcases h with h | h
    · exact Or.inl h
    · exact Or.inr (Or.inl h)

/-- `generate_pdf` reports `false` whenever the render call returned
`False` or raised. -/
theorem generate_pdf_false {env : RepoEnv} {issue : Issue}
    (h : env.render = .ok false ∨ ∃ m, env.render = .exn m) :
    (generate_pdf env issue).1 = false := by
  unfold generate_pdf
  rcases h with h | ⟨m, h⟩ <;> rw [h]

/-- Trace equation of `process_issue` when the fetch succeeds and the save
does not raise. -/
theorem process_issue_save_ok {env : RepoEnv} {issue_id : IssueId}
    {issue : Issue} (hf : env.fetch = .ok (some issue))
    (hs : env.save = .ok ()) :
    process_issue env issue_id =
      (true,
        [.event (.issueStarted issue_id.value), .call .fetchCall] ++
          (processAttachments env issue.id.value issue.attachments 0).2 ++
          (generate_pdf env issue).2 ++ [.call .saveCall] ++
          [.event (.issueCompleted issue_id.value true
            (processAttachments env issue.id.value issue.attachments 0).1
            (generate_pdf env issue).1)]) := by
  unfold process_issue
  rw [hf, hs]

/-- Trace equation of `process_issue` when the fetch succeeds but the save
raises. -/
theorem process_issue_save_exn {env : RepoEnv} {issue_id : IssueId}
    {issue : Issue} {msg : String} (hf : env.fetch = .ok (some issue))
    (hs : env.save = .exn msg) :
    process_issue env issue_id =
      (false,
        [.event (.issueStarted issue_id.value), .call .fetchCall] ++
          (processAttachments env issue.id.value issue.attachments 0).2 ++
          (generate_pdf env issue).2 ++ [.call .saveCall] ++
          [.event (.issueFailed issue_id.value msg)]) := by
  unfold process_issue
  rw [hf, hs]

/-- Trace equation of `process_issue` when the fetch returns `None`. -/
theorem process_issue_not_found {env : RepoEnv} {issue_id : IssueId}
    (hf : env.fetch = .ok none) :
    process_issue env issue_id =
      (false,
        [.event (.issueStarted issue_id.value), .call .fetchCall,
         .event (.issueFailed issue_id.value
           ("找不到 Issue: " ++ issue_id.value))]) := by
  unfold process_issue
  rw [hf]
  rfl

/-- A request that satisfies the constructor invariant passes the list
checks of `validate_crawl_request`; with an existing parent directory the
validation returns no errors at all. -/
theorem validate_nil_of_valid {req : CrawlRequest} (hv : req.Valid) :
    validate_crawl_request true req = [] := by
  obtain ⟨h1, h2⟩ := hv
  unfold validate_crawl_request
  rw [if_neg h1]
  simp only [if_true, List.append_nil, List.nil_append]
  rw [List.filterMap_eq_nil_iff]
  intro n hn
  rw [if_neg (h2 n hn)]

/-- Canonical success equation of `crawl_issues` once validation passes. -/
theorem crawl_issues_ok {env : BatchEnv} {t : Nat} {req : CrawlRequest}
    (herr : validate_crawl_request env.parentExists req = []) :
    crawl_issues env t req = .ok
      ({ total_issues := (req.get_issue_count : Int)
         successful_issues := ((crawlLoop env req.issue_numbers 0).1 : Int)
         failed_issues := ((crawlLoop env req.issue_numbers 0).2.1 : Int)
         attachments_downloaded := 0
         pdfs_generated := ((crawlLoop env req.issue_numbers 0).1 : Int) },
       .sessionStarted (crawlSessionId t) req.get_issue_count ::
         (crawlLoop env req.issue_numbers 0).2.2 ++
         [.sessionCompleted (crawlSessionId t) req.get_issue_count
           (crawlLoop env req.issue_numbers 0).1]) := by
  unfold crawl_issues
  rw [herr]
  rfl

/-- One non-blank step of the record loop. -/
theorem crawlLoop_cons_ok {env : BatchEnv} {n : String} {rest : List String}
    {i : Nat} (hn : pyStrip n ≠ "") :
    crawlLoop env (n :: rest) i =
      ((if (process_issue (env.perIssue i) ⟨pyStrip n⟩).1 then 1 else 0) +
         (crawlLoop env rest (i + 1)).1,
       (if (process_issue (env.perIssue i) ⟨pyStrip n⟩).1 then 0 else 1) +
         (crawlLoop env rest (i + 1)).2.1,
       .record n (process_issue (env.perIssue i) ⟨pyStrip n⟩).2 ::
         .sleep :: (crawlLoop env rest (i + 1)).2.2) := by
  conv_lhs => rw [crawlLoop]
  rw [if_neg hn]

/-! ## Claim theorems -/

/-- C2: for every valid (non-empty, no blank entry) `CrawlRequest`, with the
output-directory check passing and the modelled (non-raising) inter-record
sleep, `crawl_issues` returns a `CrawlResult` whose `total_issues` equals
the number of requested identifiers and whose
`successful_issues + failed_issues` equals `total_issues`. -/
theorem C2_crawl_result_counts (env : BatchEnv) (t : Nat) (req : CrawlRequest)
    (hv : req.Valid) (hp : env.parentExists = true) :
    ∃ res tr, crawl_issues env t req = .ok (res, tr) ∧
      res.total_issues = (req.issue_numbers.length : Int) ∧
      res.successful_issues + res.failed_issues = res.total_issues := by
  have herr : validate_crawl_request env.parentExists req = [] := by
    rw [hp]
    exact validate_nil_of_valid hv
  refine ⟨_, _, crawl_issues_ok herr, rfl, ?_⟩
  have hc := crawlLoop_counts env req.issue_numbers 0
  show ((crawlLoop env req.issue_numbers 0).1 : Int) +
    ((crawlLoop env req.issue_numbers 0).2.1 : Int) = (req.get_issue_count : Int)
  unfold CrawlRequest.get_issue_count
  omega

/-- C2 witness: the counting invariant evaluated on a concrete
single-identifier request in which the record is not found. -/
theorem C2_witness :
    ∃ res tr, crawl_issues batchEnvNotFound 0 request1 = .ok (res, tr) ∧
      res.total_issues = (request1.issue_numbers.length : Int) ∧
      res.successful_issues + res.failed_issues = res.total_issues :=
  C2_crawl_result_counts batchEnvNotFound 0 request1 (by decide) rfl

/-- C9: when the fetch reports the record missing, `process_issue` returns
failure and publishes `IssueProcessingFailed`, and its trace contains no
download or render repository call and no attachment/PDF event of any
kind. -/
theorem C9_not_found_short_circuit (env : RepoEnv) (issue_id : IssueId)
    (hf : env.fetch = .ok none) :
    (process_issue env issue_id).1 = false ∧
    Action.event (.issueFailed issue_id.value
        ("找不到 Issue: " ++ issue_id.value)) ∈ (process_issue env issue_id).2 ∧
    (∀ j, Action.call (.downloadCall j) ∉ (process_issue env issue_id).2) ∧
    Action.call .renderCall ∉ (process_issue env issue_id).2 ∧
    (∀ iid f, Action.event (.attachmentStarted iid f) ∉
      (process_issue env issue_id).2) ∧
    (∀ iid f s, Action.event (.attachmentCompleted iid f s) ∉
      (process_issue env issue_id).2) ∧
    (∀ iid, Action.event (.pdfStarted iid) ∉ (process_issue env issue_id).2) ∧
    (∀ iid s, Action.event (.pdfCompleted iid s) ∉
      (process_issue env issue_id).2) := by
  rw [process_issue_not_found hf]
  simp

/-- C9 witness: the short-circuit behaviour evaluated on a concrete
not-found environment. -/
theorem C9_witness :
    (process_issue sampleNotFoundEnv ⟨"9"⟩).1 = false ∧
    Action.event (.issueFailed (IssueId.mk "9").value
        ("找不到 Issue: " ++ (IssueId.mk "9").value)) ∈
      (process_issue sampleNotFoundEnv ⟨"9"⟩).2 ∧
    (∀ j, Action.call (.downloadCall j) ∉
      (process_issue sampleNotFoundEnv ⟨"9"⟩).2) ∧
    Action.call .renderCall ∉ (process_issue sampleNotFoundEnv ⟨"9"⟩).2 ∧
    (∀ iid f, Action.event (.attachmentStarted iid f) ∉
      (process_issue sampleNotFoundEnv ⟨"9"⟩).2) ∧
    (∀ iid f s, Action.event (.attachmentCompleted iid f s) ∉
      (process_issue sampleNotFoundEnv ⟨"9"⟩).2) ∧
    (∀ iid, Action.event (.pdfStarted iid) ∉
      (process_issue sampleNotFoundEnv ⟨"9"⟩).2) ∧
    (∀ iid s, Action.event (.pdfCompleted iid s) ∉
      (process_issue sampleNotFoundEnv ⟨"9"⟩).2) :=
  C9_not_found_short_circuit sampleNotFoundEnv ⟨"9"⟩ rfl

/-- C3: when the fetch succeeds (and the subsequent save does not raise — in
this repository the only `save` implementation is a no-op), a render that
returns `False` or raises leaves the record successful: `process_issue`
returns `True`, publishes `IssueProcessingCompleted` with `success=True` and
`pdf_generated=False`, and publishes no failure event. -/
theorem C3_render_failure_isolated (env : RepoEnv) (issue_id : IssueId)
    (issue : Issue) (hf : env.fetch = .ok (some issue))
    (hs : env.save = .ok ())
    (hr : env.render = .ok false ∨ ∃ m, env.render = .exn m) :
    (process_issue env issue_id).1 = true ∧
    Action.event (.issueCompleted issue_id.value true
        (processAttachments env issue.id.value issue.attachments 0).1 false) ∈
      (process_issue env issue_id).2 ∧
    (∀ m, Action.event (.issueFailed issue_id.value m) ∉
      (process_issue env issue_id).2) := by
  have hpdf : (generate_pdf env issue).1 = false := generate_pdf_false hr
  rw [process_issue_save_ok hf hs]
  refine ⟨rfl, ?_, ?_⟩
  · rw [← hpdf]
    simp
  · intro m hmem
    simp only [List.append_assoc, List.mem_append, List.mem_cons,
      List.mem_singleton, List.not_mem_nil, or_false] at hmem
    rcases hmem with hmem | hmem | hmem | hmem
    · simp at hmem
    · rcases mem_processAttachments_shapes hmem with ⟨f, h⟩ | ⟨j, h⟩ | ⟨f, s, h⟩ <;>
        simp at h
    · rcases mem_generate_pdf_shapes hmem with h | h | ⟨s, h⟩ <;> simp at h
    · simp at hmem

/-- C3 witness: render isolation evaluated on a concrete environment whose
render returns `False`. -/
theorem C3_witness :
    (process_issue sampleRenderFailEnv ⟨"1"⟩).1 = true ∧
    Action.event (.issueCompleted (IssueId.mk "1").value true
        (processAttachments sampleRenderFailEnv (sampleIssue "1").id.value
          (sampleIssue "1").attachments 0).1 false) ∈
      (process_issue sampleRenderFailEnv ⟨"1"⟩).2 ∧
    (∀ m, Action.event (.issueFailed (IssueId.mk "1").value m) ∉
      (process_issue sampleRenderFailEnv ⟨"1"⟩).2) :=
  C3_render_failure_isolated sampleRenderFailEnv ⟨"1"⟩ (sampleIssue "1")
    rfl rfl (Or.inl rfl)

/-- C10: when the fetch returns an issue, the save call occurs exactly once,
strictly after every download and render call and before the completion
event; if the save succeeds the record is reported successful, and if the
save raises the record is reported failed (`IssueProcessingFailed`
published, `False` returned) even though the fetch succeeded. -/
theorem C10_save_exactly_once (env : RepoEnv) (issue_id : IssueId)
    (issue : Issue) (hf : env.fetch = .ok (some issue)) :
    ∃ pre post,
      (process_issue env issue_id).2 = pre ++ .call .saveCall :: post ∧
      Action.call .saveCall ∉ pre ∧
      Action.call .saveCall ∉ post ∧
      (∀ j, Action.call (.downloadCall j) ∉ post) ∧
      Action.call .renderCall ∉ post ∧
      (∀ c p, Action.event (.issueCompleted issue_id.value true c p) ∉ pre) ∧
      (env.save = .ok () →
        (process_issue env issue_id).1 = true ∧
        post = [.event (.issueCompleted issue_id.value true
          (processAttachments env issue.id.value issue.attachments 0).1
          (generate_pdf env issue).1)]) ∧
      (∀ msg, env.save = .exn msg →
        (process_issue env issue_id).1 = false ∧
        post = [.event (.issueFailed issue_id.value msg)]) := by
  have hpre : ∀ a : Action,
      a ∈ ([.event (.issueStarted issue_id.value), .call .fetchCall] ++
        (processAttachments env issue.id.value issue.attachments 0).2 ++
        (generate_pdf env issue).2 : List Action) →
      (a ≠ .call .saveCall ∧
       ∀ c p, a ≠ .event (.issueCompleted issue_id.value true c p)) := by
    intro a ha
    rw [List.mem_append, List.mem_append] at ha
    rcases ha with (ha | ha) | ha
    · rcases List.mem_cons.mp ha with ha | ha
      · subst ha; exact ⟨by simp, by simp⟩
      · rcases List.mem_cons.mp ha with ha | ha
        · subst ha; exact ⟨by simp, by simp⟩
        · exact absurd ha (List.not_mem_nil a)
    · rcases mem_processAttachments_shapes ha with ⟨f, h⟩ | ⟨j, h⟩ | ⟨f, s, h⟩ <;>
        subst h <;> exact ⟨by simp, by simp⟩
    · rcases mem_generate_pdf_shapes ha with h | h | ⟨s, h⟩ <;>
        subst h <;> exact ⟨by simp, by simp⟩
  cases hs : env.save with
  | ok u =>
    cases u
    refine ⟨[.event (.issueStarted issue_id.value), .call .fetchCall] ++
        (processAttachments env issue.id.value issue.attachments 0).2 ++
        (generate_pdf env issue).2,
      [.event (.issueCompleted issue_id.value true
        (processAttachments env issue.id.value issue.attachments 0).1
        (generate_pdf env issue).1)], ?_, ?_, ?_, ?_, ?_, ?_, ?_, ?_⟩
    · rw [process_issue_save_ok hf hs]
      simp
    · intro ha
      exact (hpre _ ha).1 rfl
    · simp
    · intro j; simp
    · simp
    · intro c p ha
      exact (hpre _ ha).2 c p rfl
    · intro _
      refine ⟨?_, rfl⟩
      rw [process_issue_save_ok hf hs]
    · intro msg hmsg
      exact absurd hmsg (by simp)
  | exn msg0 =>
    refine ⟨[.event (.issueStarted issue_id.value), .call .fetchCall] ++
        (processAttachments env issue.id.value issue.attachments 0).2 ++
        (generate_pdf env issue).2,
      [.event (.issueFailed issue_id.value msg0)], ?_, ?_, ?_, ?_, ?_, ?_, ?_, ?_⟩
    · rw [process_issue_save_exn hf hs]
      simp
    · intro ha
      exact (hpre _ ha).1 rfl
    · simp
    · intro j; simp
    · simp
    · intro c p ha
      exact (hpre _ ha).2 c p rfl
    · intro hok
      exact absurd hok (by simp)
    · intro msg hmsg
      injection hmsg with h
      subst h
      refine ⟨?_, rfl⟩
      rw [process_issue_save_exn hf hs]

/-- C10 witness: save placement evaluated on a concrete all-success
environment. -/
theorem C10_witness :
    ∃ pre post,
      (process_issue (sampleOkEnv (sampleIssue "1")) ⟨"1"⟩).2 =
        pre ++ .call .saveCall :: post ∧
      Action.call .saveCall ∉ pre ∧
      Action.call .saveCall ∉ post ∧
      (∀ j, Action.call (.downloadCall j) ∉ post) ∧
      Action.call .renderCall ∉ post ∧
      (∀ c p, Action.event (.issueCompleted (IssueId.mk "1").value true c p) ∉ pre) ∧
      ((sampleOkEnv (sampleIssue "1")).save = .ok () →
        (process_issue (sampleOkEnv (sampleIssue "1")) ⟨"1"⟩).1 = true ∧
        post = [.event (.issueCompleted (IssueId.mk "1").value true
          (processAttachments (sampleOkEnv (sampleIssue "1"))
            (sampleIssue "1").id.value (sampleIssue "1").attachments 0).1
          (generate_pdf (sampleOkEnv (sampleIssue "1")) (sampleIssue "1")).1)]) ∧
      (∀ msg, (sampleOkEnv (sampleIssue "1")).save = .exn msg →
        (process_issue (sampleOkEnv (sampleIssue "1")) ⟨"1"⟩).1 = false ∧
        post = [.event (.issueFailed (IssueId.mk "1").value msg)]) :=
  C10_save_exactly_once (sampleOkEnv (sampleIssue "1")) ⟨"1"⟩ (sampleIssue "1") rfl

/-- C1 counterexample: in the exact scenario of the claim — three
identifiers, the first two fetching successfully with one attachment each,
every download and render succeeding, the third not found — the returned
result carries `attachments_downloaded = 0`, not `2`: the application
service hard-codes that field to zero instead of computing it. -/
theorem C1_counterexample :
    (crawl_issues batchEnv3 0 request3).toOption.map Prod.fst =
      some { total_issues := 3, successful_issues := 2, failed_issues := 1,
             attachments_downloaded := 0, pdfs_generated := 2 } ∧
    ({ total_issues := 3, successful_issues := 2, failed_issues := 1,
       attachments_downloaded := 0, pdfs_generated := 2 } :
        CrawlResult).attachments_downloaded ≠ 2 := by
  constructor
  · decide
  · decide

/-- C1 amended: in the scenario of the claim (three identifiers, the first
two fetching successfully with one attachment each, downloads, renders and
saves succeeding, the third not found) `crawl_issues` returns
`CrawlResult{total:3, successful:2, failed:1, attachments_downloaded:0,
pdfs_generated:2}` — the attachment counter is hard-coded to zero. -/
theorem C1_scenario_amended (env : BatchEnv) (t : Nat) (req : CrawlRequest)
    (n1 n2 n3 : String) (i1 i2 : Issue) (a1 a2 : Attachment)
    (hreq : req.issue_numbers = [n1, n2, n3])
    (hp : env.parentExists = true)
    (hb1 : pyStrip n1 ≠ "") (hb2 : pyStrip n2 ≠ "") (hb3 : pyStrip n3 ≠ "")
    (hf1 : (env.perIssue 0).fetch = .ok (some i1))
    (hf2 : (env.perIssue 1).fetch = .ok (some i2))
    (hf3 : (env.perIssue 2).fetch = .ok none)
    (ha1 : i1.attachments = [a1]) (ha2 : i2.attachments = [a2])
    (hd1 : (env.perIssue 0).download 0 = .ok true)
    (hd2 : (env.perIssue 1).download 0 = .ok true)
    (hr1 : (env.perIssue 0).render = .ok true)
    (hr2 : (env.perIssue 1).render = .ok true)
    (hs1 : (env.perIssue 0).save = .ok ())
    (hs2 : (env.perIssue 1).save = .ok ()) :
    (crawl_issues env t req).toOption.map Prod.fst =
      some { total_issues := 3, successful_issues := 2, failed_issues := 1,
             attachments_downloaded := 0, pdfs_generated := 2 } := by
  have hv : req.Valid := by
    refine ⟨by rw [hreq]; simp, ?_⟩
    rw [hreq]
    intro n hn
    simp only [List.mem_cons, List.not_mem_nil, or_false] at hn
    rcases hn with rfl | rfl | rfl
    · exact hb1
    · exact hb2
    · exact hb3
  have herr : validate_crawl_request env.parentExists req = [] := by
    rw [hp]
    exact validate_nil_of_valid hv
  have hp1 : (process_issue (env.perIssue 0) ⟨pyStrip n1⟩).1 = true := by
    rw [process_issue_save_ok hf1 hs1]
  have hp2 : (process_issue (env.perIssue 1) ⟨pyStrip n2⟩).1 = true := by
    rw [process_issue_save_ok hf2 hs2]
  have hp3 : (process_issue (env.perIssue 2) ⟨pyStrip n3⟩).1 = false := by
    rw [process_issue_not_found hf3]
  have hloop : (crawlLoop env req.issue_numbers 0).1 = 2 ∧
      (crawlLoop env req.issue_numbers 0).2.1 = 1 := by
    rw [hreq, crawlLoop_cons_ok hb1, crawlLoop_cons_ok hb2, crawlLoop_cons_ok hb3]
    dsimp only
    rw [hp1, hp2, hp3]
    simp [crawlLoop]
  rw [crawl_issues_ok herr]
  simp only [Except.toOption, Option.map_some]
  have htot : req.get_issue_count = 3 := by
    unfold CrawlRequest.get_issue_count
    rw [hreq]
    rfl
  rw [htot, hloop.1, hloop.2]
  rfl

/-- C1 witness: the amended scenario evaluated on the concrete
three-identifier environment. -/
theorem C1_witness :
    (crawl_issues batchEnv3 7 request3).toOption.map Prod.fst =
      some { total_issues := 3, successful_issues := 2, failed_issues := 1,
             attachments_downloaded := 0, pdfs_generated := 2 } :=
  C1_scenario_amended batchEnv3 7 request3 "1" "2" "3"
    (sampleIssue "1") (sampleIssue "2")
    { filename := "a.txt", url := "http://example/a.txt" }
    { filename := "a.txt", url := "http://example/a.txt" }
    rfl rfl (by decide) (by decide) (by decide)
    rfl rfl rfl rfl rfl rfl rfl rfl rfl rfl rfl

/-- C5 counterexample: for a single-identifier batch, the trace places a
`sleep` directly after the only (hence last) record and before the
session-completed event — the inter-record delay is executed after the last
record as well, contradicting the claim. -/
theorem C5_counterexample :
    (crawl_issues batchEnvNotFound 0 request1).toOption.map Prod.snd =
      some [.sessionStarted "crawl_0" 1,
            .record "1" [.event (.issueStarted "1"), .call .fetchCall,
              .event (.issueFailed "1" "找不到 Issue: 1")],
            .sleep,
            .sessionCompleted "crawl_0" 1 0] := by
  decide

/-- C5 amended: the configured inter-record delay is applied after every
record iteration of a valid batch — including the last one — so the
projection of the trace onto record/sleep steps is exactly one sleep after
each record. -/
theorem C5_sleep_after_every_record (env : BatchEnv) (t : Nat)
    (req : CrawlRequest) (hv : ∀ n ∈ req.issue_numbers, pyStrip n ≠ "")
    (res : CrawlResult) (tr : List BAction)
    (h : crawl_issues env t req = .ok (res, tr)) :
    stepTrace tr = req.issue_numbers.flatMap (fun n => [some n, none]) := by
  by_cases herr : validate_crawl_request env.parentExists req = []
  · rw [crawl_issues_ok herr] at h
    injection h with h1
    injection h1 with h2 h3
    subst h3
    simp only [stepTrace, List.filterMap_cons, List.filterMap_append, stepKind]
    rw [← stepTrace, crawlLoop_stepTrace env req.issue_numbers 0 hv]
    simp
  · unfold crawl_issues at h
    rw [if_pos herr] at h
    cases h

/-- C5 witness: the sleep placement evaluated on the concrete
single-identifier batch. -/
theorem C5_witness :
    stepTrace [.sessionStarted "crawl_0" 1,
      .record "1" [.event (.issueStarted "1"), .call .fetchCall,
        .event (.issueFailed "1" "找不到 Issue: 1")],
      .sleep,
      .sessionCompleted "crawl_0" 1 0] =
      request1.issue_numbers.flatMap (fun n => [some n, none]) :=
  C5_sleep_after_every_record batchEnvNotFound 0 request1 (by decide) _ _ (by rfl)

/-- C4 counterexample: the domain sanitizer is not idempotent — on
`"a" * 99 + " b"` the 100-character truncation exposes a trailing space
that a second application strips — and a string consisting only of illegal
characters sanitizes to underscores, not to the `"unnamed_file"`
placeholder (for both sanitizers). -/
theorem C4_counterexample :
    sanitize_filename (sanitize_filename longAName) ≠ sanitize_filename longAName ∧
    sanitize_filename "?" ≠ "unnamed_file" ∧
    fs_sanitize_filename "?" ≠ "unnamed_file" := by
  refine ⟨?_, ?_, ?_⟩ <;> decide

/-- C4 amended: the attachment-store sanitizer (no length cap) is
idempotent on every string; a non-empty string consisting only of the
illegal characters sanitizes to a string of underscores of the same length
(capped at 100 by the domain sanitizer), and the `"unnamed_file"`
placeholder is not produced for such inputs. -/
theorem C4_sanitize_amended :
    (∀ s, fs_sanitize_filename (fs_sanitize_filename s) = fs_sanitize_filename s) ∧
    (∀ s : String, s.data ≠ [] → (∀ c ∈ s.data, illegalChar c = true) →
      fs_sanitize_filename s = String.mk (List.replicate s.data.length '_') ∧
      sanitize_filename s = String.mk (List.replicate (min s.data.length 100) '_')) :=
  ⟨fs_sanitize_idem,
   fun _ h1 h2 => ⟨fs_sanitize_all_illegal h1 h2, sanitize_all_illegal h1 h2⟩⟩

/-- C4 witness: idempotence and the all-illegal case evaluated on concrete
strings. -/
theorem C4_witness :
    fs_sanitize_filename (fs_sanitize_filename "  a?b. ") =
      fs_sanitize_filename "  a?b. " ∧
    fs_sanitize_filename "??" = String.mk (List.replicate "??".data.length '_') ∧
    sanitize_filename "??" = String.mk (List.replicate (min "??".data.length 100) '_') :=
  ⟨C4_sanitize_amended.1 "  a?b. ",
   (C4_sanitize_amended.2 "??" (by decide) (by decide)).1,
   (C4_sanitize_amended.2 "??" (by decide) (by decide)).2⟩

/-- C6 counterexample: two `add_attachment` calls with attachments that
share a filename but differ in URL leave the issue with two attachments of
the same filename — `add_attachment` deduplicates by whole-value equality,
not by filename. -/
theorem C6_counterexample :
    ((issueEmpty.add_attachment ⟨"f.txt", "http://u1", none, none⟩).add_attachment
        ⟨"f.txt", "http://u2", none, none⟩).attachments.map Attachment.filename =
      ["f.txt", "f.txt"] ∧
    ¬ (((issueEmpty.add_attachment ⟨"f.txt", "http://u1", none, none⟩).add_attachment
        ⟨"f.txt", "http://u2", none, none⟩).attachments.map Attachment.filename).Nodup := by
  constructor
  · decide
  · decide

/-- C6 amended: `add_attachment` never inserts a duplicate attachment
value (equality over filename, url, size and content type): starting from
an issue whose attachment list has no duplicate values, the list stays
duplicate-free; filename uniqueness is not enforced. -/
theorem C6_add_attachment_nodup (i : Issue) (a : Attachment)
    (h : i.attachments.Nodup) : (i.add_attachment a).attachments.Nodup := by
  unfold Issue.add_attachment
  by_cases hm : a ∈ i.attachments
  · rw [if_pos hm]
    exact h
  · rw [if_neg hm]
    dsimp only
    rw [List.nodup_append]
    refine ⟨h, List.nodup_singleton a, ?_⟩
    intro x hx hx2
    rw [List.mem_singleton] at hx2
    subst hx2
    exact hm hx

/-- C6 witness: value-level deduplication evaluated on a concrete issue. -/
theorem C6_witness :
    ((issueEmpty.add_attachment ⟨"f.txt", "http://u1", none, none⟩).add_attachment
      ⟨"f.txt", "http://u1", none, none⟩).attachments.Nodup :=
  C6_add_attachment_nodup
    (issueEmpty.add_attachment ⟨"f.txt", "http://u1", none, none⟩)
    ⟨"f.txt", "http://u1", none, none⟩ (by decide)

/-- C7 counterexample: two distinct invocations of `crawl_issues` (on
different requests) whose clock reads the same integer second receive the
very same session identifier `"crawl_1728000000"` — time-derived ids are
not unique within a process run. -/
theorem C7_counterexample :
    (crawl_issues batchEnvNotFound 1728000000 request1).toOption.map
        (fun r => r.2.head?) =
      some (some (.sessionStarted "crawl_1728000000" 1)) ∧
    (crawl_issues batchEnvNotFound 1728000000 request2).toOption.map
        (fun r => r.2.head?) =
      some (some (.sessionStarted "crawl_1728000000" 2)) ∧
    request1 ≠ request2 := by
  refine ⟨?_, ?_, ?_⟩ <;> decide

/-- C7 amended: session identifiers distinguish two invocations exactly
when their integer-second clock readings differ — `crawlSessionId` is
injective in the clock value, but two crawls starting within the same
second share one id. -/
theorem C7_session_id_iff (t1 t2 : Nat) :
    crawlSessionId t1 = crawlSessionId t2 ↔ t1 = t2 := by
  constructor
  · intro h
    unfold crawlSessionId at h
    have h3 := congrArg String.data h
    simp only [String.data_append] at h3
    have h4 := List.append_cancel_left h3
    exact natRepr_injective (String.ext h4)
  · intro h
    rw [h]

/-- C8 counterexample: `CrawlResult` performs no validation, so a result
with more successes than total records is constructible and its
`success_rate` exceeds `1`. -/
theorem C8_counterexample :
    ({ total_issues := 1, successful_issues := 2, failed_issues := 0,
       attachments_downloaded := 0, pdfs_generated := 0 } :
        CrawlResult).success_rate = 2 ∧
    ¬ (({ total_issues := 1, successful_issues := 2, failed_issues := 0,
          attachments_downloaded := 0, pdfs_generated := 0 } :
         CrawlResult).success_rate ≤ 1) := by
  constructor
  · norm_num [CrawlResult.success_rate]
  · norm_num [CrawlResult.success_rate]

/-- C8 amended: `success_rate` is `0` when `total_issues = 0` and
`successful/total` otherwise, and it lies in `[0, 1]` whenever
`0 ≤ successful_issues ≤ total_issues` (which every completed crawl
satisfies, but which the unvalidated constructor does not enforce). -/
theorem C8_success_rate (r : CrawlResult) :
    (r.total_issues = 0 → r.success_rate = 0) ∧
    (r.total_issues ≠ 0 →
      r.success_rate = (r.successful_issues : ℚ) / (r.total_issues : ℚ)) ∧
    (0 ≤ r.successful_issues → r.successful_issues ≤ r.total_issues →
      0 ≤ r.success_rate ∧ r.success_rate ≤ 1) := by
  refine ⟨?_, ?_, ?_⟩
  · intro h
    simp [CrawlResult.success_rate, h]
  · intro h
    simp [CrawlResult.success_rate, h]
  · intro h1 h2
    by_cases h : r.total_issues = 0
    · simp [CrawlResult.success_rate, h]
    · have hpos : 0 < r.total_issues := by omega
      have hrate : r.success_rate =
          (r.successful_issues : ℚ) / (r.total_issues : ℚ) := by
        simp [CrawlResult.success_rate, h]
      rw [hrate]
      constructor
      · apply div_nonneg
        · exact_mod_cast h1
        · exact_mod_cast hpos.le
      · rw [div_le_one (by exact_mod_cast hpos)]
        exact_mod_cast h2

/-- C8 witness: the derived-value equations and the bounds evaluated on
concrete results. -/
theorem C8_witness :
    (({ total_issues := 0, successful_issues := 0, failed_issues := 0,
        attachments_downloaded := 0, pdfs_generated := 0 } :
         CrawlResult).success_rate = 0) ∧
    (({ total_issues := 4, successful_issues := 2, failed_issues := 2,
        attachments_downloaded := 0, pdfs_generated := 2 } :
         CrawlResult).success_rate =
      (((2 : Int) : ℚ)) / (((4 : Int) : ℚ))) ∧
    (0 ≤ ({ total_issues := 4, successful_issues := 2, failed_issues := 2,
            attachments_downloaded := 0, pdfs_generated := 2 } :
           CrawlResult).success_rate ∧
      ({ total_issues := 4, successful_issues := 2, failed_issues := 2,
         attachments_downloaded := 0, pdfs_generated := 2 } :
          CrawlResult).success_rate ≤ 1) :=
  ⟨(C8_success_rate _).1 rfl,
   (C8_success_rate _).2.1 (by norm_num),
   (C8_success_rate _).2.2 (by norm_num) (by norm_num)⟩

end Redmine
